import Mathlib

/-!
Verification development for the script-copilot repository.

Part 1 embeds the `/execute-script` request handler of
`backend/main.go` (`handleExecuteScript`): the temporary script file
lifecycle, the child-process invocation and the outcome classification.
Filesystem and process effects are abstracted into an `ExecEnv` record
describing what the environment does at each step, and the handler is a
pure function from the parsed request and that environment to the HTTP
response together with a trace of the resource effects (temp file
created / removed, child spawned).

Part 2 embeds the terminal session state machine of the frontend
`TerminalEmulator` component: the transcript lines, the bounded command
history, the built-in command table and the keyboard handlers.
-/

namespace ScriptCopilot

/-- Go struct `ExecuteScriptResponse` (main.go lines 29-33).
Both `Output` and `Error` carry `omitempty`, so a field holding the
empty string is absent from the serialized JSON. -/
structure ExecuteScriptResponse where
  success : Bool
  output : String
  error : String
deriving DecidableEq, Repr

/-- Body of an HTTP response produced by the handler: either a
`gin.H{"error": ...}` object or a serialized `ExecuteScriptResponse`. -/
inductive HttpBody
  | errJson (msg : String)
  | execResult (r : ExecuteScriptResponse)
deriving DecidableEq, Repr

structure HttpResponse where
  status : Nat
  body : HttpBody
deriving DecidableEq, Repr

/-- How the child process terminated: `exited code` for a normal exit,
`signaled desc` for abnormal termination. `cmd.Run()` returns a non-nil
error exactly when the outcome is not `exited 0`. -/
inductive ProcOutcome
  | exited (code : Nat)
  | signaled (desc : String)
deriving DecidableEq, Repr

/-- The text of the Go error returned by `cmd.Run()` for a failing
child (`exec.ExitError`): `exit status N` for a non-zero exit,
`signal: ...` for abnormal termination. -/
def procErrString : ProcOutcome → String
  | .exited code => "exit status " ++ toString code
  | .signaled desc => "signal: " ++ desc

/-- Abstraction of what the environment does during one request:
whether `os.CreateTemp`, `tmpfile.Write`, `tmpfile.Close` and
`os.Chmod` succeed, and, if the script runs, how the child terminates
and what it writes to the two capture buffers. -/
structure ExecEnv where
  createTempOk : Bool
  writeOk : Bool
  closeOk : Bool
  chmodOk : Bool
  outcome : ProcOutcome
  stdout : String
  stderr : String
deriving DecidableEq, Repr

/-- Result of one request: the HTTP response plus the resource trace.
`tempCreated` records that `os.CreateTemp` succeeded, `tempRemoved`
that the deferred `os.Remove` ran on handler exit, `childSpawned` that
`exec.Command` was started. -/
structure HandlerResult where
  resp : HttpResponse
  tempCreated : Bool
  tempRemoved : Bool
  childSpawned : Bool
deriving DecidableEq, Repr

/-- `handleExecuteScript` (main.go lines 219-287).

The request is `none` when the JSON body has no `script` field (or is
malformed); Gin's `binding:"required"` also rejects an empty string, so
both cases take the `ShouldBindJSON` error path with status 400.  After
a successful `os.CreateTemp` the handler registers
`defer os.Remove(tmpfile.Name())`, so `tempRemoved` is true on every
later exit path.  A failing child (`cmd.Run()` error) is still answered
with HTTP 200 and a structured `ExecuteScriptResponse`. -/
def handleExecuteScript (script : Option String) (env : ExecEnv) : HandlerResult :=
  match script with
  | none =>
    ⟨⟨400, .errJson "Field validation for Script failed on the required tag"⟩,
      false, false, false⟩
  | some s =>
    if s = "" then
      ⟨⟨400, .errJson "Field validation for Script failed on the required tag"⟩,
        false, false, false⟩
    else if env.createTempOk = false then
      ⟨⟨500, .errJson "Failed to create temporary script file"⟩, false, false, false⟩
    else if env.writeOk = false then
      ⟨⟨500, .errJson "Failed to write script to file"⟩, true, true, false⟩
    else if env.closeOk = false then
      ⟨⟨500, .errJson "Failed to close script file after writing"⟩, true, true, false⟩
    else if env.chmodOk = false then
      ⟨⟨500, .errJson "Failed to make script executable"⟩, true, true, false⟩
    else
      match env.outcome with
      | .exited 0 =>
        ⟨⟨200, .execResult ⟨true, env.stdout, ""⟩⟩, true, true, true⟩
      | o =>
        ⟨⟨200, .execResult ⟨false, env.stdout,
            "Script execution failed: " ++ procErrString o ++ "\n" ++ env.stderr⟩⟩,
          true, true, true⟩

/-- Claim C1: for every script whose child process exits non-zero or
terminates abnormally, the handler answers HTTP 200 with a well-formed
result carrying `success = false`, the captured stdout preserved in the
output field, and an error field holding the `cmd.Run()` diagnostic
followed by the captured stderr; the failure is never surfaced as a
non-2xx response. -/
theorem script_failure_returns_ok_structured (s : String) (env : ExecEnv)
    (hs : s ≠ "") (hc : env.createTempOk = true) (hw : env.writeOk = true)
    (hcl : env.closeOk = true) (hch : env.chmodOk = true)
    (ho : env.outcome ≠ ProcOutcome.exited 0) :
    handleExecuteScript (some s) env =
      ⟨⟨200, .execResult ⟨false, env.stdout,
          "Script execution failed: " ++ procErrString env.outcome ++ "\n" ++ env.stderr⟩⟩,
        true, true, true⟩ := by
  simp only [handleExecuteScript, if_neg hs, hc, hw, hcl, hch, Bool.true_eq_false,
    if_false]

/-- Concrete instance of C1: a script exiting with status 1 after
writing to both streams. -/
theorem script_failure_returns_ok_structured_witness :
    handleExecuteScript (some "echo out; echo err 1>&2; exit 1")
        ⟨true, true, true, true, .exited 1, "out\n", "err\n"⟩ =
      ⟨⟨200, .execResult ⟨false, "out\n",
          "Script execution failed: exit status 1\nerr\n"⟩⟩, true, true, true⟩ :=
  script_failure_returns_ok_structured _ _ (by decide) rfl rfl rfl rfl (by decide)

/-- Claim C2: whenever the temporary script file is successfully
created, it is removed by the time the handler exits, on every exit
path (write failure, close failure, chmod failure, script failure and
success alike), thanks to the `defer os.Remove` registered right after
creation. -/
theorem temp_file_removed_on_all_paths (script : Option String) (env : ExecEnv)
    (h : (handleExecuteScript script env).tempCreated = true) :
    (handleExecuteScript script env).tempRemoved = true := by
  rcases env with ⟨ct, w, cl, ch, o, so, se⟩
  cases script with
  | none => exact absurd h (by simp [handleExecuteScript])
  | some s =>
    by_cases hse : s = ""
    · subst hse; exact absurd h (by simp [handleExecuteScript])
    · cases ct
      · exact absurd h (by simp [handleExecuteScript, hse])
      · cases w
        · simp [handleExecuteScript, hse]
        · cases cl
          · simp [handleExecuteScript, hse]
          · cases ch
            · simp [handleExecuteScript, hse]
            · rcases o with code | d
              · cases code <;> simp [handleExecuteScript, hse]
              · simp [handleExecuteScript, hse]

/-- Concrete instance of C2: a failing chmod still removes the file. -/
theorem temp_file_removed_on_all_paths_witness :
    (handleExecuteScript (some "echo hi") ⟨true, true, true, false, .exited 0, "", ""⟩).tempRemoved
      = true :=
  temp_file_removed_on_all_paths (some "echo hi")
    ⟨true, true, true, false, .exited 0, "", ""⟩ rfl

/-- Claim C3: an execute request with an empty or missing script field
is rejected with status 400 before any temporary file is created or any
child process spawned; nothing is created on the validation path. -/
theorem empty_script_rejected_before_resources (script : Option String) (env : ExecEnv)
    (h : script = none ∨ script = some "") :
    (handleExecuteScript script env).resp.status = 400 ∧
    (handleExecuteScript script env).tempCreated = false ∧
    (handleExecuteScript script env).childSpawned = false := by
  rcases h with h | h <;> subst h <;> exact ⟨rfl, rfl, rfl⟩

/-- Concrete instance of C3: the empty script string. -/
theorem empty_script_rejected_before_resources_witness :
    (handleExecuteScript (some "") ⟨true, true, true, true, .exited 0, "", ""⟩).resp.status = 400 ∧
    (handleExecuteScript (some "") ⟨true, true, true, true, .exited 0, "", ""⟩).tempCreated = false ∧
    (handleExecuteScript (some "") ⟨true, true, true, true, .exited 0, "", ""⟩).childSpawned = false :=
  empty_script_rejected_before_resources (some "")
    ⟨true, true, true, true, .exited 0, "", ""⟩ (Or.inr rfl)

/-- Claim C4: a child exiting with status 0 yields `success = true`
with the output field exactly the captured stdout and the error field
empty — and, being empty, omitted from the JSON by `omitempty`. -/
theorem zero_exit_returns_success (s : String) (env : ExecEnv)
    (hs : s ≠ "") (hc : env.createTempOk = true) (hw : env.writeOk = true)
    (hcl : env.closeOk = true) (hch : env.chmodOk = true)
    (ho : env.outcome = ProcOutcome.exited 0) :
    handleExecuteScript (some s) env =
      ⟨⟨200, .execResult ⟨true, env.stdout, ""⟩⟩, true, true, true⟩ := by
  simp only [handleExecuteScript, if_neg hs, hc, hw, hcl, hch, Bool.true_eq_false,
    if_false, ho]

/-- Concrete instance of C4: a script printing to stdout and exiting 0. -/
theorem zero_exit_returns_success_witness :
    handleExecuteScript (some "echo hello")
        ⟨true, true, true, true, .exited 0, "hello\n", ""⟩ =
      ⟨⟨200, .execResult ⟨true, "hello\n", ""⟩⟩, true, true, true⟩ :=
  zero_exit_returns_success _ _ (by decide) rfl rfl rfl rfl rfl

/-! ## Terminal session state machine (frontend `TerminalEmulator`)

The React component keeps five pieces of state: the transcript
(`lines`), the pending input (`currentInput`), the command history
(`history`, most-recent-first), the history cursor (`historyIndex`,
`-1` meaning none) and the simulated `workingDirectory`.  The state
setters of the component become explicit state passing.  One JavaScript
subtlety is kept faithfully: the `history` built-in calls
`history.reverse()`, and `Array.prototype.reverse` reverses the array
*in place*, so executing that built-in also overwrites the array it
captured with its reversal.  (During an Enter submission the captured
array is the stale render-scope one; see the note on `handleKeyDown`
about React's eager evaluation of the `setHistory` functional
update.) -/

inductive LineType
  | input | output | error
deriving DecidableEq, Repr

structure TermLine where
  content : String
  type : LineType
deriving DecidableEq, Repr

structure TermState where
  lines : List TermLine
  currentInput : String
  history : List String
  historyIndex : Int
  workingDirectory : String
deriving DecidableEq, Repr

/-- JavaScript `String.prototype.trim`: strip whitespace from both
ends.  (Defined over the character list so that it evaluates inside the
kernel.) -/
def jsTrim (s : String) : String :=
  String.mk (((s.data.dropWhile Char.isWhitespace).reverse.dropWhile Char.isWhitespace).reverse)

/-- JavaScript `String.prototype.split(' ')`: split on every single
space; adjacent separators produce empty fragments and the result is
never the empty list (`''.split(' ')` is `['']`). -/
def jsSplitOnSpace (s : String) : List String :=
  (s.data.foldr
    (fun c acc => if c = ' ' then [] :: acc else (c :: acc.headD []) :: acc.tail)
    [[]]).map String.mk

/-- ASCII case of JavaScript `String.prototype.toLowerCase` on one
character. -/
def jsCharToLower (c : Char) : Char :=
  if 'A' ≤ c ∧ c ≤ 'Z' then Char.ofNat (c.toNat + 32) else c

/-- JavaScript `String.prototype.toLowerCase` (ASCII range). -/
def jsToLowerCase (s : String) : String := String.mk (s.data.map jsCharToLower)

/-- JavaScript `s.startsWith(pre)`. -/
def jsStartsWith (s pre : String) : Bool := pre.data.isPrefixOf s.data

def promptLine : TermLine := ⟨"$ ", .input⟩

def welcomeLine : TermLine :=
  ⟨"Welcome to Script Generator Terminal. Type \"help\" for available commands.", .output⟩

/-- Initial component state (`useState` initializers, lines 23-30). -/
def initState (initialWorkingDirectory : String) : TermState :=
  { lines := [welcomeLine, promptLine]
    currentInput := ""
    history := []
    historyIndex := -1
    workingDirectory := initialWorkingDirectory }

/-- A `TerminalCommand` table entry. The `execute` closures of the
component read and write component state, so here they take and return
the whole state next to their textual result. -/
structure TerminalCommand where
  name : String
  description : String
  execute : List String → TermState → String × TermState

def helpText : String :=
  "Available commands:\n  clear - Clear the terminal screen\n  help  - Show this help message\n  pwd   - Print working directory\n  cd    - Change directory (simulation)\n  history - Show command history"

/-- `clear` entry: `setLines([{ content: '$ ', type: 'input' }])`. -/
def clearCmd : TerminalCommand :=
  { name := "clear", description := "Clear the terminal screen"
    execute := fun _ s => ("", { s with lines := [promptLine] }) }

def helpCmd : TerminalCommand :=
  { name := "help", description := "Show available commands"
    execute := fun _ s => (helpText, s) }

def pwdCmd : TerminalCommand :=
  { name := "pwd", description := "Print working directory"
    execute := fun _ s => (s.workingDirectory, s) }

/-- `cd` entry: `const newPath = args[0] || '~'` — JavaScript `||`
falls back to `~` when `args[0]` is missing *or* the empty string. -/
def cdCmd : TerminalCommand :=
  { name := "cd", description := "Change directory (simulation)"
    execute := fun args s =>
      let newPath := if args.headD "" = "" then "~" else args.headD ""
      ("", { s with workingDirectory := newPath }) }

/-- `history` entry: `history.reverse().join('\n')`.
`Array.prototype.reverse` reverses in place, so the stored buffer is
overwritten with its reversal as a side effect of rendering it. -/
def historyCmd : TerminalCommand :=
  { name := "history", description := "Show command history"
    execute := fun _ s =>
      (String.intercalate "\n" s.history.reverse, { s with history := s.history.reverse }) }

/-- The built-in command table (part_000 lines 36-76), in source order. -/
def builtInCommands : List TerminalCommand :=
  [clearCmd, helpCmd, pwdCmd, cdCmd, historyCmd]

/-- `executeCommand` (part_000 lines 113-125): split the trimmed line
on single spaces, look the first token up in the table; a hit runs the
built-in and appends its non-empty output as an output line; a miss
forwards the line to the external `onExecute` callback, which does not
touch session state. -/
def executeCommand (command : String) (s : TermState) : TermState :=
  let parts := jsSplitOnSpace (jsTrim command)
  let cmd := parts.headD ""
  let args := parts.tail
  match builtInCommands.find? (fun c => c.name == cmd) with
  | some c =>
    let (output, s') := c.execute args s
    if output ≠ "" then { s' with lines := s'.lines ++ [⟨output, .output⟩] } else s'
  | none => s

/-- The `onChange` handler of the input element (part_000 line 240):
`setCurrentInput(e.target.value)` and nothing else. -/
def handleChange (value : String) (s : TermState) : TermState :=
  { s with currentInput := value }

inductive Key
  | enter | arrowUp | arrowDown | tab | ctrlL
deriving DecidableEq, Repr

/-- `handleKeyDown` (part_000 lines 127-178). Enter with a non-empty
trimmed buffer prepends it to the history truncated at 50, resets the
cursor, echoes the prompt line, dispatches via `executeCommand`, then
clears the buffer and appends a fresh prompt.

Two points of React state semantics are kept faithfully. First,
`setHistory(prev => [command, ...prev].slice(0, 50))` is the first
update dispatched by an idle handler, so React evaluates the functional
update eagerly at the call: the render array is spread into a fresh
array (`newHistory`) before `executeCommand` runs, and that fresh array
is what gets committed — the `history` built-in's later in-place
reverse hits only the stale render array.  Second, the built-in
closures read the render-scope state, so `executeCommand` below runs
against the pre-prepend history (`s2.history = s.history`), and the
committed buffer is `newHistory` regardless of what the built-in did to
the array it captured.

The arrows walk the history.  Tab replaces the buffer with the first
table entry whose name starts with the lowercased buffer.  Ctrl+L calls
`executeCommand('clear')`. -/
def handleKeyDown (k : Key) (s : TermState) : TermState :=
  match k with
  | .enter =>
    let command := jsTrim s.currentInput
    if command ≠ "" then
      let newHistory := (command :: s.history).take 50
      let s2 := { s with
        historyIndex := -1
        lines := s.lines ++ [⟨s.workingDirectory ++ " $ " ++ s.currentInput, .input⟩] }
      let s3 := executeCommand command s2
      { s3 with history := newHistory, currentInput := "", lines := s3.lines ++ [promptLine] }
    else s
  | .arrowUp =>
    if s.historyIndex < (s.history.length : Int) - 1 then
      let newIndex := s.historyIndex + 1
      { s with historyIndex := newIndex, currentInput := s.history.getD newIndex.toNat "" }
    else s
  | .arrowDown =>
    if s.historyIndex > 0 then
      let newIndex := s.historyIndex - 1
      { s with historyIndex := newIndex, currentInput := s.history.getD newIndex.toNat "" }
    else if s.historyIndex = 0 then
      { s with historyIndex := -1, currentInput := "" }
    else s
  | .tab =>
    let input := jsToLowerCase s.currentInput
    match builtInCommands.find? (fun c => jsStartsWith c.name input) with
    | some suggestion => { s with currentInput := suggestion.name }
    | none => s
  | .ctrlL => executeCommand "clear" s

/-- Typing a command and pressing Enter, once per list element. -/
def submitAll (cmds : List String) (s : TermState) : TermState :=
  cmds.foldl (fun st c => handleKeyDown .enter (handleChange c st)) s

/-- The first whitespace-delimited token `executeCommand` dispatches on. -/
def dispatchTok (c : String) : String := (jsSplitOnSpace (jsTrim c)).headD ""

/-- Dispatching a command whose first token is not `history` leaves the
history buffer unchanged: the four other built-ins never touch it, and
an unrecognized line goes to the external callback. -/
theorem executeCommand_keeps_history (cmd : String) (s : TermState)
    (h : dispatchTok cmd ≠ "history") :
    (executeCommand cmd s).history = s.history := by
  simp only [dispatchTok] at h
  cases hf : builtInCommands.find? (fun c => c.name == (jsSplitOnSpace (jsTrim cmd)).headD "") with
  | none => simp only [executeCommand, hf]
  | some c =>
    have hmem := List.mem_of_find?_eq_some hf
    have hname := List.find?_some hf
    simp only [executeCommand, hf]
    simp only [builtInCommands, List.mem_cons, List.not_mem_nil, or_false] at hmem
    rcases hmem with rfl | rfl | rfl | rfl | rfl
    · rfl
    · rfl
    · simp only [pwdCmd]
      split <;> rfl
    · simp only [cdCmd]
      split <;> rfl
    · have hn : ("history" == (jsSplitOnSpace (jsTrim cmd)).headD "") = true := hname
      exact absurd (eq_of_beq hn).symm h

/-- No built-in touches the history cursor, so `executeCommand` never
changes `historyIndex`. -/
theorem executeCommand_keeps_historyIndex (cmd : String) (s : TermState) :
    (executeCommand cmd s).historyIndex = s.historyIndex := by
  cases hf : builtInCommands.find? (fun c => c.name == (jsSplitOnSpace (jsTrim cmd)).headD "") with
  | none => simp only [executeCommand, hf]
  | some c =>
    have hmem := List.mem_of_find?_eq_some hf
    simp only [executeCommand, hf]
    simp only [builtInCommands, List.mem_cons, List.not_mem_nil, or_false] at hmem
    rcases hmem with rfl | rfl | rfl | rfl | rfl <;>
      first
        | rfl
        | (simp only [pwdCmd, cdCmd, helpCmd, historyCmd]; split <;> rfl)

/-- One Enter on a typed command `c` that is non-empty once trimmed
turns the buffer into the trimmed command prepended to the old buffer,
truncated at 50 — whatever the command dispatches to, since the
committed buffer is the eagerly evaluated `setHistory` update. -/
theorem submit_history_shape (c : String) (s : TermState)
    (h1 : jsTrim c ≠ "") :
    (handleKeyDown .enter (handleChange c s)).history = (jsTrim c :: s.history).take 50 := by
  simp only [handleKeyDown, handleChange]
  rw [if_pos h1]

/-- Claim C5: for every sequence of submitted commands that are
non-empty after trimming, the history buffer ends up holding the
trimmed commands most-recent first on top of the old buffer, truncated
to the 50 newest entries — in particular it never exceeds 50 entries,
and after 60 distinct submissions exactly the most recent 50 remain. -/
theorem history_bounded_most_recent_first (cmds : List String) (s : TermState)
    (hlen : s.history.length ≤ 50)
    (h : ∀ c ∈ cmds, jsTrim c ≠ "") :
    (submitAll cmds s).history = ((cmds.map jsTrim).reverse ++ s.history).take 50 ∧
    (submitAll cmds s).history.length ≤ 50 := by
  induction cmds generalizing s with
  | nil =>
    simpa [submitAll, List.take_of_length_le hlen] using hlen
  | cons c cs ih =>
    have hc1 := h c (List.mem_cons_self c cs)
    have hstep : (handleKeyDown .enter (handleChange c s)).history =
        (jsTrim c :: s.history).take 50 :=
      submit_history_shape c s hc1
    have hlen' : (handleKeyDown .enter (handleChange c s)).history.length ≤ 50 := by
      rw [hstep]; exact List.length_take_le _ _
    obtain ⟨ih1, ih2⟩ := ih (handleKeyDown .enter (handleChange c s)) hlen'
      (fun d hd => h d (List.mem_cons_of_mem c hd))
    have hfold : submitAll (c :: cs) s = submitAll cs (handleKeyDown .enter (handleChange c s)) := rfl
    refine ⟨?_, by rw [hfold]; exact ih2⟩
    rw [hfold, ih1, hstep, List.take_append_eq_append_take, List.take_take,
      Nat.min_eq_left (Nat.sub_le _ _), ← List.take_append_eq_append_take]
    simp [List.append_assoc]

/-- Concrete instance of C5: sixty distinct commands submitted into a
fresh session leave exactly the most recent fifty, newest first. -/
theorem history_bounded_most_recent_first_witness :
    (submitAll ((List.range 60).map (fun i => "cmd" ++ toString i)) (initState "~")).history =
      ((((List.range 60).map (fun i => "cmd" ++ toString i)).map jsTrim).reverse ++
        (initState "~").history).take 50 ∧
    (submitAll ((List.range 60).map (fun i => "cmd" ++ toString i)) (initState "~")).history.length
      ≤ 50 :=
  history_bounded_most_recent_first _ _ (by decide) (by decide)

/-- A session holding the two previously submitted commands `a` then
`b` (buffer stored most-recent-first). -/
def twoEntryState : TermState :=
  { lines := [welcomeLine, promptLine]
    currentInput := ""
    history := ["b", "a"]
    historyIndex := -1
    workingDirectory := "~" }

/-- Claim C6, evaluated at the failing input: executing the `history`
built-in does render the buffer oldest-to-newest (`a\nb` appended as an
output line), but `Array.prototype.reverse` mutates in place, so the
stored buffer itself comes out reversed — the buffer is *not* left
unchanged, contradicting the claim that only successful non-empty
submissions mutate it. -/
theorem history_builtin_mutates_buffer :
    (executeCommand "history" twoEntryState).lines =
      [welcomeLine, promptLine, ⟨"a\nb", .output⟩] ∧
    (executeCommand "history" twoEntryState).history = ["a", "b"] ∧
    (executeCommand "history" twoEntryState).history ≠ twoEntryState.history := by
  decide

/-- Counterexample to C7: submit `a`, press Up (cursor now at index 0),
then edit the buffer directly by typing a character — the cursor stays
at 0 instead of resetting to none (`-1`), because the input `onChange`
handler only calls `setCurrentInput`. -/
theorem direct_edit_keeps_cursor_cex :
    (handleChange "ab"
      (handleKeyDown .arrowUp
        (handleKeyDown .enter (handleChange "a" (initState "~"))))).historyIndex = 0 ∧
    (handleChange "ab"
      (handleKeyDown .arrowUp
        (handleKeyDown .enter (handleChange "a" (initState "~"))))).historyIndex ≠ -1 := by
  decide

/-- Claim C7 as amended: the history cursor resets to none whenever a
command with a non-empty trimmed buffer is submitted; a direct edit of
the pending input buffer replaces only the buffer and leaves the
history cursor unchanged. -/
theorem cursor_reset_on_submit_only (s : TermState) (v : String) :
    (jsTrim s.currentInput ≠ "" → (handleKeyDown .enter s).historyIndex = -1) ∧
    (handleChange v s).historyIndex = s.historyIndex ∧
    (handleChange v s).currentInput = v := by
  refine ⟨fun h => ?_, rfl, rfl⟩
  simp only [handleKeyDown]
  rw [if_pos h]
  exact executeCommand_keeps_historyIndex _ _

/-- Concrete instance of the amended C7: submitting `pwd` resets the
cursor; typing into a fresh session leaves the cursor where it was. -/
theorem cursor_reset_on_submit_only_witness :
    (handleKeyDown .enter (handleChange "pwd" (initState "~"))).historyIndex = -1 ∧
    (handleChange "x" (initState "~")).historyIndex = (initState "~").historyIndex :=
  ⟨(cursor_reset_on_submit_only (handleChange "pwd" (initState "~")) "x").1 (by decide),
   (cursor_reset_on_submit_only (initState "~") "x").2.1⟩

/-- Claim C8: `pwd` returns the session's `workingDirectory` verbatim
without touching the state; `cd` sets `workingDirectory` to its first
argument with no validation of the path, defaulting to `~` when the
argument is omitted (or empty, by JavaScript truthiness); and from any
fresh session, submitting `cd /tmp` and then `pwd` appends an output
line that is exactly `/tmp`. -/
theorem pwd_cd_semantics (s : TermState) (args : List String) (d : String) :
    (pwdCmd.execute args s).1 = s.workingDirectory ∧
    (pwdCmd.execute args s).2 = s ∧
    (cdCmd.execute (d :: args) s).2.workingDirectory = (if d = "" then "~" else d) ∧
    (cdCmd.execute [] s).2.workingDirectory = "~" ∧
    (handleKeyDown .enter (handleChange "cd /tmp" s)).workingDirectory = "/tmp" ∧
    (handleKeyDown .enter (handleChange "pwd"
        (handleKeyDown .enter (handleChange "cd /tmp" (initState "~"))))).lines =
      (handleKeyDown .enter (handleChange "cd /tmp" (initState "~"))).lines ++
        [⟨"/tmp $ pwd", LineType.input⟩, ⟨"/tmp", LineType.output⟩, promptLine] := by
  refine ⟨rfl, rfl, rfl, rfl, rfl, by decide⟩

/-- Claim C9: the Ctrl+L shortcut is, by the dispatch in
`handleKeyDown`, exactly `executeCommand('clear')`: in every state it
resets the transcript to the single prompt line and is observationally
identical to the `clear` built-in on the transcript, the history
buffer, the working directory, the pending input and the cursor. -/
theorem ctrlL_equiv_clear_builtin (s : TermState) :
    handleKeyDown .ctrlL s = executeCommand "clear" s ∧
    (handleKeyDown .ctrlL s).lines = [promptLine] ∧
    (handleKeyDown .ctrlL s).history = s.history ∧
    (handleKeyDown .ctrlL s).workingDirectory = s.workingDirectory ∧
    (handleKeyDown .ctrlL s).currentInput = s.currentInput ∧
    (handleKeyDown .ctrlL s).historyIndex = s.historyIndex :=
  ⟨rfl, rfl, rfl, rfl, rfl, rfl⟩

/-- Claim C10: on an empty pending buffer, Tab replaces the buffer with
`clear`, the first entry of the built-in table, since every name starts
with the empty string; in general Tab always adopts the name of the
first table entry whose name starts with the lowercased buffer
content. -/
theorem tab_completion (s : TermState) :
    (s.currentInput = "" → (handleKeyDown .tab s).currentInput = "clear") ∧
    (∀ c, builtInCommands.find?
        (fun tc => jsStartsWith tc.name (jsToLowerCase s.currentInput)) = some c →
      (handleKeyDown .tab s).currentInput = c.name) := by
  constructor
  · intro h
    simp only [handleKeyDown, h]
    rfl
  · intro c hc
    simp only [handleKeyDown, hc]

/-- Concrete instance of C10: Tab in a fresh session (empty buffer)
yields `clear`, which is the name of the table's first entry. -/
theorem tab_completion_witness :
    (handleKeyDown .tab (initState "~")).currentInput = "clear" ∧
    (handleKeyDown .tab (initState "~")).currentInput = clearCmd.name :=
  ⟨(tab_completion (initState "~")).1 rfl,
   (tab_completion (initState "~")).2 clearCmd rfl⟩

end ScriptCopilot
